import Mathlib

/-!
Verification of the payment-tracker data-access layer (src/app.py).

The repository is a Streamlit dashboard over a Postgres `payments` table.
Its core is four query functions: `get_payments`, `add_payment`,
`update_payment_status`, `get_payment_stats`.  We embed them shallowly:

* the database table is an explicit `List Payment` together with the
  storage-generated id counter (`DBState`);
* the memoized connection is `Option DBState` (`none` = no connection,
  mirroring `if not conn: return ...` in every function);
* a database exception during a `cursor.execute` call is a boolean flag
  fed to `runDB`, which yields `Except`; the repository functions catch
  the error and convert it to a `(message, fallback)` pair, mirroring the
  `try`/`except Exception as e: st.error(...); return fallback` structure;
* wall-clock time (`datetime.now()`) is an explicit `now : Nat` argument;
  `DATE(created_at)` is day-truncation `dateOf`;
* SQL semantics: `ORDER BY created_at DESC LIMIT n` is insertion sort by
  the descending-timestamp relation followed by `take`; `INSERT` appends a
  row with the next generated id; `UPDATE ... WHERE id = %s` maps over the
  table rewriting the matching rows; the three aggregate queries are
  filters/group-by over the table.
-/

namespace PaymentTracker

/-- One row of the `payments` table (columns as selected in `get_payments`). -/
structure Payment where
  id : Nat
  customer_name : String
  amount : ℚ
  currency : String
  status : String
  payment_method : String
  created_at : Nat
  updated_at : Nat
deriving DecidableEq

/-- The database state: the `payments` table plus the storage-generated
primary-key counter. -/
structure DBState where
  table : List Payment
  nextId : Nat
deriving DecidableEq

/-- The comparison used by `ORDER BY created_at DESC`: `a` comes before `b`
when `a.created_at ≥ b.created_at`. -/
def createdDesc (a b : Payment) : Prop := b.created_at ≤ a.created_at

instance : DecidableRel createdDesc := fun a b => Nat.decLe b.created_at a.created_at

instance : IsTotal Payment createdDesc := ⟨fun a b => Nat.le_total b.created_at a.created_at⟩

instance : IsTrans Payment createdDesc := ⟨fun _ _ _ hab hbc => le_trans hbc hab⟩

/-- A database call that may raise: `fail = true` models an exception
thrown by `cursor.execute`/`conn.commit`, caught by the enclosing
`except Exception` clause. -/
def runDB {α : Type} (fail : Bool) (x : α) : Except String α :=
  if fail then Except.error "database error" else Except.ok x

/-- Semantics of
`SELECT ... FROM payments ORDER BY created_at DESC LIMIT %s`. -/
def selectPayments (table : List Payment) (limit : Nat) : List Payment :=
  (table.insertionSort createdDesc).take limit

/-- `get_payments(conn, limit)` from src/app.py: `[]` when no connection;
otherwise run the SELECT, catching any exception as
`st.error(f"Error fetching payments: ...")` plus `[]`. -/
def get_payments (conn : Option DBState) (fail : Bool) (limit : Nat) :
    Option String × List Payment :=
  match conn with
  | none => (none, [])
  | some s =>
    match runDB fail (selectPayments s.table limit) with
    | Except.error e => (some ("Error fetching payments: " ++ e), [])
    | Except.ok rows => (none, rows)

/-- The row built by the INSERT's VALUES tuple: caller-supplied fields, one
timestamp written to both `created_at` and `updated_at`, id generated by
storage. -/
def mkRow (nid : Nat) (customer_name : String) (amount : ℚ)
    (currency status payment_method : String) (now : Nat) : Payment :=
  { id := nid, customer_name := customer_name, amount := amount,
    currency := currency, status := status, payment_method := payment_method,
    created_at := now, updated_at := now }

/-- Semantics of the `INSERT INTO payments ... VALUES (%s, ..., %s)` write:
append a row with the storage-generated id; the caller passes the status
and both timestamps. -/
def insertRow (s : DBState) (customer_name : String) (amount : ℚ)
    (currency status payment_method : String) (now : Nat) : DBState :=
  { table := s.table ++ [mkRow s.nextId customer_name amount currency status payment_method now],
    nextId := s.nextId + 1 }

/-- `add_payment(conn, customer_name, amount, currency, payment_method)` from
src/app.py: `False` when no connection; otherwise INSERT with status
`"pending"` and `created_at = updated_at = now`, commit, return `True`;
any exception yields `st.error(f"Error adding payment: ...")` and `False`
(the transaction is not committed, so the state is unchanged). -/
def add_payment (conn : Option DBState) (fail : Bool) (customer_name : String)
    (amount : ℚ) (currency payment_method : String) (now : Nat) :
    Option String × Bool × Option DBState :=
  match conn with
  | none => (none, false, none)
  | some s =>
    match runDB fail (insertRow s customer_name amount currency "pending" payment_method now) with
    | Except.error e => (some ("Error adding payment: " ++ e), false, some s)
    | Except.ok s' => (none, true, some s')

/-- Semantics of `UPDATE payments SET status = %s, updated_at = %s WHERE id = %s`:
rewrite `status` and `updated_at` of every row whose `id` matches, leave
all other rows (and all other columns) unchanged. -/
def updateRow (table : List Payment) (payment_id : Nat) (new_status : String)
    (now : Nat) : List Payment :=
  table.map fun p =>
    if p.id = payment_id then { p with status := new_status, updated_at := now } else p

/-- `update_payment_status(conn, payment_id, new_status)` from src/app.py:
`False` when no connection; otherwise run the UPDATE, commit, return `True`
(no rows-affected check); any exception yields
`st.error(f"Error updating payment: ...")` and `False`. -/
def update_payment_status (conn : Option DBState) (fail : Bool) (payment_id : Nat)
    (new_status : String) (now : Nat) : Option String × Bool × Option DBState :=
  match conn with
  | none => (none, false, none)
  | some s =>
    match runDB fail (updateRow s.table payment_id new_status now) with
    | Except.error e => (some ("Error updating payment: " ++ e), false, some s)
    | Except.ok t => (none, true, some { s with table := t })

/-- `DATE(created_at)`: the calendar day of a timestamp (seconds since epoch,
truncated to days). -/
def dateOf (t : Nat) : Nat := t / 86400

/-- First aggregate query, count component:
`SELECT COUNT(*) ... WHERE DATE(created_at) = %s` at today's date. -/
def todayCount (table : List Payment) (now : Nat) : Nat :=
  (table.filter fun p => dateOf p.created_at = dateOf now).length

/-- First aggregate query, sum component:
`COALESCE(SUM(amount), 0)` over today's rows (`0` when none match). -/
def todayTotal (table : List Payment) (now : Nat) : ℚ :=
  ((table.filter fun p => dateOf p.created_at = dateOf now).map Payment.amount).sum

/-- Second aggregate query:
`SELECT status, COUNT(*) FROM payments GROUP BY status` — one pair per
distinct status value present in the table. -/
def statusDistribution (table : List Payment) : List (String × Nat) :=
  ((table.map Payment.status).dedup).map fun st =>
    (st, (table.filter fun p => p.status = st).length)

/-- Third aggregate query:
`SELECT COUNT(*) FROM payments WHERE created_at >= %s` at `now - 1 hour`. -/
def recentActivity (table : List Payment) (now : Nat) : Nat :=
  (table.filter fun p => now - 3600 ≤ p.created_at).length

/-- A value of the statistics dictionary returned by `get_payment_stats`. -/
inductive StatVal
  | count (n : Nat)
  | money (q : ℚ)
  | dist (d : List (String × Nat))
deriving DecidableEq

/-- `get_payment_stats(conn)` from src/app.py: `{}` when no connection;
otherwise three sub-queries inside one `try` block, then a single return of
the four-key dictionary; an exception in any sub-query yields
`st.error(f"Error fetching stats: ...")` and `{}` (modelled as the empty
association list). -/
def get_payment_stats (conn : Option DBState) (fail1 fail2 fail3 : Bool)
    (now : Nat) : Option String × List (String × StatVal) :=
  match conn with
  | none => (none, [])
  | some s =>
    match runDB fail1 (todayCount s.table now, todayTotal s.table now) with
    | Except.error e => (some ("Error fetching stats: " ++ e), [])
    | Except.ok tc =>
      match runDB fail2 (statusDistribution s.table) with
      | Except.error e => (some ("Error fetching stats: " ++ e), [])
      | Except.ok sd =>
        match runDB fail3 (recentActivity s.table now) with
        | Except.error e => (some ("Error fetching stats: " ++ e), [])
        | Except.ok ra =>
          (none,
           [("today_count", StatVal.count tc.1),
            ("today_total", StatVal.money tc.2),
            ("status_distribution", StatVal.dist sd),
            ("recent_activity", StatVal.count ra)])

/-! ### Helper lemmas -/

/-- If `x` beats every element of `l` strictly (no `a ∈ l` is `≽ x`), then
sorting `l ++ [x]` puts `x` first. -/
theorem insertionSort_append_singleton {α : Type} (r : α → α → Prop) [DecidableRel r] (x : α) :
    ∀ l : List α, (∀ a ∈ l, ¬ r a x) →
      List.insertionSort r (l ++ [x]) = x :: List.insertionSort r l
  | [], _ => rfl
  | a :: l, h => by
    have hl : ∀ b ∈ l, ¬ r b x := fun b hb => h b (List.mem_cons_of_mem _ hb)
    have ha : ¬ r a x := h a (List.mem_cons_self _ _)
    simp only [List.cons_append, List.insertionSort, List.append_eq]
    rw [insertionSort_append_singleton r x l hl]
    simp only [List.orderedInsert, if_neg ha]

/-! ### C1 -/

/-- C1: for every positive `limit` and every table state, `get_payments`
returns at most `limit` rows, sorted by `created_at` descending (every
adjacent pair — indeed every pair — has the earlier element's `created_at`
`≥` the later one's), and returns the empty sequence, not a fault, when no
connection is available or when the table is empty. -/
theorem C1_list_sorted_capped (conn : Option DBState) (fail : Bool)
    (limit : Nat) (nid : Nat) (_hpos : 0 < limit) :
    (get_payments conn fail limit).2.length ≤ limit ∧
    List.Pairwise (fun a b => b.created_at ≤ a.created_at) (get_payments conn fail limit).2 ∧
    (get_payments none fail limit).2 = [] ∧
    (get_payments (some (DBState.mk [] nid)) fail limit).2 = [] := by
  refine ⟨?_, ?_, ?_, ?_⟩
  · match conn with
    | none => simp [get_payments]
    | some s =>
      match fail with
      | true => simp [get_payments, runDB]
      | false =>
        simp only [get_payments, runDB, if_neg Bool.false_ne_true, selectPayments]
        exact List.length_take_le _ _
  · match conn with
    | none => simp [get_payments]
    | some s =>
      match fail with
      | true => simp [get_payments, runDB]
      | false =>
        simp only [get_payments, runDB, if_neg Bool.false_ne_true, selectPayments]
        exact ((List.sorted_insertionSort createdDesc s.table).sublist
          (List.take_sublist _ _)).imp (fun h => h)
  · simp [get_payments]
  · match fail with
    | true => simp [get_payments, runDB]
    | false => simp [get_payments, runDB, selectPayments]

/-- Witness for C1 at a concrete connection, failure flag and limit. -/
theorem C1_list_sorted_capped_witness :
    (get_payments (some (DBState.mk
        [⟨1, "Alice", 5, "USD", "pending", "credit_card", 10, 10⟩] 2)) false 3).2.length ≤ 3 ∧
    List.Pairwise (fun a b => b.created_at ≤ a.created_at)
      (get_payments (some (DBState.mk
        [⟨1, "Alice", 5, "USD", "pending", "credit_card", 10, 10⟩] 2)) false 3).2 ∧
    (get_payments none false 3).2 = [] ∧
    (get_payments (some (DBState.mk [] 7)) false 3).2 = [] :=
  C1_list_sorted_capped
    (some (DBState.mk [⟨1, "Alice", 5, "USD", "pending", "credit_card", 10, 10⟩] 2))
    false 3 7 (by decide)

/-- Lookup of a single row by primary key (the re-fetch of a row after an
update: the row of the current table whose `id` matches). -/
def fetchById (table : List Payment) (pid : Nat) : Option Payment :=
  table.find? fun q => q.id = pid

/-- A map whose function fixes every element of the list is the identity. -/
theorem map_fix_eq_self {α : Type} (f : α → α) :
    ∀ l : List α, (∀ a ∈ l, f a = a) → l.map f = l
  | [], _ => rfl
  | a :: l, h => by
    have ha : f a = a := h a (List.mem_cons_self _ _)
    have hl : ∀ b ∈ l, f b = b := fun b hb => h b (List.mem_cons_of_mem _ hb)
    simp [ha, map_fix_eq_self f l hl]

/-- Re-fetching by `id` after `updateRow` returns the previously fetched row
with exactly `status` and `updated_at` rewritten. -/
theorem fetchById_updateRow (pid : Nat) (st : String) (now : Nat) :
    ∀ t : List Payment, ∀ p : Payment, fetchById t pid = some p →
      fetchById (updateRow t pid st now) pid =
        some { p with status := st, updated_at := now }
  | [], p, h => by simp [fetchById] at h
  | a :: t, p, h => by
    by_cases ha : a.id = pid
    · have hp : a = p := by simpa [fetchById, List.find?, ha] using h
      subst hp
      simp [fetchById, updateRow, List.find?, ha]
    · have ht : fetchById t pid = some p := by
        simpa [fetchById, List.find?, ha] using h
      have ih := fetchById_updateRow pid st now t p ht
      simpa [fetchById, updateRow, List.find?, ha] using ih

/-! ### C2 -/

/-- C2: for every valid input, `add_payment` writes a row whose status is
`"pending"` regardless of caller intent with `created_at = updated_at`, in
one write; a subsequent `get_payments` with `limit ≥ 1` yields that row (at
the head, since it is newest); it returns `true` on success and `false` on
any failure (no connection, or an exception) without raising. -/
theorem C2_insert_pending (s : DBState) (fail : Bool) (nm : String) (amt : ℚ)
    (cur mth : String) (now limit : Nat) (hlim : 1 ≤ limit)
    (hfresh : ∀ p ∈ s.table, p.created_at < now) :
    (add_payment (some s) false nm amt cur mth now).2.1 = true ∧
    (add_payment none fail nm amt cur mth now).2.1 = false ∧
    (add_payment (some s) true nm amt cur mth now).2.1 = false ∧
    (add_payment (some s) false nm amt cur mth now).2.2 =
      some (insertRow s nm amt cur "pending" mth now) ∧
    (get_payments (some (insertRow s nm amt cur "pending" mth now)) false limit).2.head? =
      some (mkRow s.nextId nm amt cur "pending" mth now) := by
  refine ⟨rfl, rfl, rfl, rfl, ?_⟩
  have hx : ∀ a ∈ s.table, ¬ createdDesc a (mkRow s.nextId nm amt cur "pending" mth now) :=
    fun a ha => not_le.mpr (hfresh a ha)
  match limit with
  | 0 => omega
  | k + 1 =>
    simp only [get_payments, runDB, Bool.false_eq_true, if_false, selectPayments, insertRow]
    rw [insertionSort_append_singleton createdDesc _ s.table hx]
    simp [List.take_succ_cons]

/-- Witness for C2 at a concrete table, timestamp and limit. -/
theorem C2_insert_pending_witness :
    (add_payment (some (DBState.mk
        [⟨1, "Bob", 7, "EUR", "completed", "paypal", 10, 11⟩] 2))
        false "Alice" 5 "USD" "credit_card" 20).2.1 = true ∧
    (add_payment none true "Alice" 5 "USD" "credit_card" 20).2.1 = false ∧
    (add_payment (some (DBState.mk
        [⟨1, "Bob", 7, "EUR", "completed", "paypal", 10, 11⟩] 2))
        true "Alice" 5 "USD" "credit_card" 20).2.1 = false ∧
    (add_payment (some (DBState.mk
        [⟨1, "Bob", 7, "EUR", "completed", "paypal", 10, 11⟩] 2))
        false "Alice" 5 "USD" "credit_card" 20).2.2 =
      some (insertRow (DBState.mk
        [⟨1, "Bob", 7, "EUR", "completed", "paypal", 10, 11⟩] 2)
        "Alice" 5 "USD" "pending" "credit_card" 20) ∧
    (get_payments (some (insertRow (DBState.mk
        [⟨1, "Bob", 7, "EUR", "completed", "paypal", 10, 11⟩] 2)
        "Alice" 5 "USD" "pending" "credit_card" 20)) false 1).2.head? =
      some (mkRow 2 "Alice" 5 "USD" "pending" "credit_card" 20) :=
  C2_insert_pending (DBState.mk
      [⟨1, "Bob", 7, "EUR", "completed", "paypal", 10, 11⟩] 2)
    true "Alice" 5 "USD" "credit_card" 20 1 (by decide) (by decide)

/-! ### C3 -/

/-- C3: for an existing payment row (the row fetched by primary key) and a
new status, `update_payment_status` succeeds, rewrites `status` and
`updated_at` together in the same single write keyed by primary key, and a
re-fetch of that row yields `status = new_status` and an `updated_at`
strictly greater than the row's prior `updated_at` (the call's timestamp,
with the clock strictly past the prior write). -/
theorem C3_update_then_refetch (s : DBState) (p : Payment) (pid : Nat)
    (new_status : String) (now : Nat)
    (hfind : fetchById s.table pid = some p) (hnow : p.updated_at < now) :
    (update_payment_status (some s) false pid new_status now).2.1 = true ∧
    (update_payment_status (some s) false pid new_status now).2.2 =
      some { s with table := updateRow s.table pid new_status now } ∧
    (fetchById (updateRow s.table pid new_status now) pid).map Payment.status =
      some new_status ∧
    (fetchById (updateRow s.table pid new_status now) pid).map Payment.updated_at =
      some now ∧
    p.updated_at < now := by
  have hf := fetchById_updateRow pid new_status now s.table p hfind
  exact ⟨rfl, rfl, by rw [hf]; rfl, by rw [hf]; rfl, hnow⟩

/-- Witness for C3 at a concrete one-row table. -/
theorem C3_update_then_refetch_witness :
    (update_payment_status (some (DBState.mk
        [⟨1, "Alice", 5, "USD", "pending", "credit_card", 10, 10⟩] 2))
        false 1 "completed" 20).2.1 = true ∧
    (update_payment_status (some (DBState.mk
        [⟨1, "Alice", 5, "USD", "pending", "credit_card", 10, 10⟩] 2))
        false 1 "completed" 20).2.2 =
      some { table := updateRow
              [⟨1, "Alice", 5, "USD", "pending", "credit_card", 10, 10⟩] 1 "completed" 20,
             nextId := 2 } ∧
    (fetchById (updateRow
        [⟨1, "Alice", 5, "USD", "pending", "credit_card", 10, 10⟩] 1 "completed" 20)
        1).map Payment.status = some "completed" ∧
    (fetchById (updateRow
        [⟨1, "Alice", 5, "USD", "pending", "credit_card", 10, 10⟩] 1 "completed" 20)
        1).map Payment.updated_at = some 20 ∧
    (10 : Nat) < 20 :=
  C3_update_then_refetch (DBState.mk
      [⟨1, "Alice", 5, "USD", "pending", "credit_card", 10, 10⟩] 2)
    ⟨1, "Alice", 5, "USD", "pending", "credit_card", 10, 10⟩ 1 "completed" 20
    rfl (by decide)

/-! ### C4 -/

/-- C4 counterexample: on a table with no row of id `1`, the code returns
`true`, not `false` — `update_payment_status` performs no rows-affected
check and reports success for a no-op update. -/
theorem C4_counterexample :
    (update_payment_status (some (DBState.mk [] 0)) false 1 "completed" 5).2.1 = true :=
  rfl

/-- C4 (amended): for every `id` matching no row, `update_payment_status`
returns `true` (the no-op is NOT observable from the return value: the code
raises no error and checks no row count) and leaves the table unchanged. -/
theorem C4_no_match_reports_success (s : DBState) (pid : Nat) (st : String)
    (now : Nat) (h : ∀ p ∈ s.table, p.id ≠ pid) :
    (update_payment_status (some s) false pid st now).2.1 = true ∧
    (update_payment_status (some s) false pid st now).2.2 = some s := by
  refine ⟨rfl, ?_⟩
  have hmap : updateRow s.table pid st now = s.table :=
    map_fix_eq_self _ s.table fun p hp => if_neg (h p hp)
  simp [update_payment_status, runDB, hmap]

/-- Witness for C4's amended claim at a concrete non-matching id. -/
theorem C4_no_match_reports_success_witness :
    (update_payment_status (some (DBState.mk
        [⟨1, "Alice", 5, "USD", "pending", "credit_card", 10, 10⟩] 2))
        false 9 "failed" 20).2.1 = true ∧
    (update_payment_status (some (DBState.mk
        [⟨1, "Alice", 5, "USD", "pending", "credit_card", 10, 10⟩] 2))
        false 9 "failed" 20).2.2 =
      some (DBState.mk [⟨1, "Alice", 5, "USD", "pending", "credit_card", 10, 10⟩] 2) :=
  C4_no_match_reports_success (DBState.mk
      [⟨1, "Alice", 5, "USD", "pending", "credit_card", 10, 10⟩] 2)
    9 "failed" 20 (by decide)

/-! ### C5 -/

/-- C5: every operation, on every failure path (no connection available, or
a database exception during the call), returns its fallback value — `[]`
for `get_payments`, `false` for `add_payment` and `update_payment_status`,
the empty mapping for `get_payment_stats` — and nothing unwinds past the
operation boundary: the exception is caught at the database call and
converted to a `(message, fallback)` pair. -/
theorem C5_failure_fallbacks (s : DBState) (fail f2 f3 : Bool) (limit : Nat)
    (nm : String) (amt : ℚ) (cur mth st : String) (pid now : Nat) :
    get_payments none fail limit = (none, []) ∧
    get_payments (some s) true limit =
      (some "Error fetching payments: database error", []) ∧
    add_payment none fail nm amt cur mth now = (none, false, none) ∧
    add_payment (some s) true nm amt cur mth now =
      (some "Error adding payment: database error", false, some s) ∧
    update_payment_status none fail pid st now = (none, false, none) ∧
    update_payment_status (some s) true pid st now =
      (some "Error updating payment: database error", false, some s) ∧
    get_payment_stats none fail f2 f3 now = (none, []) ∧
    get_payment_stats (some s) true f2 f3 now =
      (some "Error fetching stats: database error", []) ∧
    get_payment_stats (some s) false true f3 now =
      (some "Error fetching stats: database error", []) ∧
    get_payment_stats (some s) false false true now =
      (some "Error fetching stats: database error", []) := by
  refine ⟨?_, rfl, ?_, rfl, ?_, rfl, ?_, rfl, rfl, rfl⟩ <;> cases fail <;> rfl

/-! ### C6 -/

/-- C6: `get_payment_stats` on an empty table returns `today_count = 0`,
`today_total = 0.00`, `status_distribution = {}` and `recent_activity = 0`;
a status with zero rows is absent from the distribution (never present with
value `0`); and `today_total` is `0.00`, never null, whenever no row's
`created_at` falls on the current date. -/
theorem C6_stats_empty_table (nid now : Nat) (s : DBState) (st : String)
    (hno_today : ∀ p ∈ s.table, dateOf p.created_at ≠ dateOf now)
    (hno_status : ∀ p ∈ s.table, p.status ≠ st) :
    get_payment_stats (some (DBState.mk [] nid)) false false false now =
      (none,
       [("today_count", StatVal.count 0), ("today_total", StatVal.money 0),
        ("status_distribution", StatVal.dist []), ("recent_activity", StatVal.count 0)]) ∧
    todayTotal s.table now = 0 ∧
    st ∉ (statusDistribution s.table).map Prod.fst := by
  refine ⟨rfl, ?_, ?_⟩
  · have hfilter : (s.table.filter fun p => dateOf p.created_at = dateOf now) = [] := by
      rw [List.filter_eq_nil_iff]
      intro p hp
      simpa using hno_today p hp
    rw [todayTotal, hfilter]
    rfl
  · intro hmem
    rw [statusDistribution, List.map_map] at hmem
    have hmem' : st ∈ (s.table.map Payment.status).dedup := by
      simpa using hmem
    obtain ⟨p, hp, hps⟩ := List.mem_map.mp (List.mem_dedup.mp hmem')
    exact hno_status p hp hps

/-- Witness for C6 at a concrete non-empty table whose only row is neither
from today nor of the probed status. -/
theorem C6_stats_empty_table_witness :
    get_payment_stats (some (DBState.mk [] 3)) false false false 100000 =
      (none,
       [("today_count", StatVal.count 0), ("today_total", StatVal.money 0),
        ("status_distribution", StatVal.dist []), ("recent_activity", StatVal.count 0)]) ∧
    todayTotal [⟨1, "Alice", 5, "USD", "pending", "credit_card", 10, 10⟩] 100000 = 0 ∧
    "refunded" ∉ (statusDistribution
      [⟨1, "Alice", 5, "USD", "pending", "credit_card", 10, 10⟩]).map Prod.fst :=
  C6_stats_empty_table 3 100000
    (DBState.mk [⟨1, "Alice", 5, "USD", "pending", "credit_card", 10, 10⟩] 2)
    "refunded" (by decide) (by decide)

/-! ### C7 -/

/-- C7: `update_payment_status` touches only `status` and `updated_at` of
the rows matched by primary key, in the same single write: the table keeps
its length, every row keeps its `id`, `customer_name`, `amount`,
`currency`, `payment_method` and `created_at` (so `created_at` is immutable
after insertion), every non-matching row is entirely unchanged, and a
matching row is exactly the old row with `status` and `updated_at`
rewritten. -/
theorem C7_update_touches_only_status_updated_at (s : DBState) (pid : Nat)
    (st : String) (now : Nat) (i : Nat) (hi : i < s.table.length)
    (hi' : i < (updateRow s.table pid st now).length) :
    (update_payment_status (some s) false pid st now).2.2 =
      some { s with table := updateRow s.table pid st now } ∧
    (updateRow s.table pid st now).length = s.table.length ∧
    (updateRow s.table pid st now).get ⟨i, hi'⟩ =
      (if (s.table.get ⟨i, hi⟩).id = pid
       then { s.table.get ⟨i, hi⟩ with status := st, updated_at := now }
       else s.table.get ⟨i, hi⟩) ∧
    ((updateRow s.table pid st now).get ⟨i, hi'⟩).id = (s.table.get ⟨i, hi⟩).id ∧
    ((updateRow s.table pid st now).get ⟨i, hi'⟩).customer_name
      = (s.table.get ⟨i, hi⟩).customer_name ∧
    ((updateRow s.table pid st now).get ⟨i, hi'⟩).amount = (s.table.get ⟨i, hi⟩).amount ∧
    ((updateRow s.table pid st now).get ⟨i, hi'⟩).currency = (s.table.get ⟨i, hi⟩).currency ∧
    ((updateRow s.table pid st now).get ⟨i, hi'⟩).payment_method
      = (s.table.get ⟨i, hi⟩).payment_method ∧
    ((updateRow s.table pid st now).get ⟨i, hi'⟩).created_at
      = (s.table.get ⟨i, hi⟩).created_at := by
  have hget : (updateRow s.table pid st now).get ⟨i, hi'⟩ =
      (if (s.table.get ⟨i, hi⟩).id = pid
       then { s.table.get ⟨i, hi⟩ with status := st, updated_at := now }
       else s.table.get ⟨i, hi⟩) := by
    simp [updateRow, List.get_eq_getElem, List.getElem_map]
  refine ⟨rfl, by simp [updateRow], hget, ?_, ?_, ?_, ?_, ?_, ?_⟩ <;>
    rw [hget] <;> split <;> rfl

/-- Witness for C7 at a concrete two-row table, probing the matching row. -/
theorem C7_update_touches_only_status_updated_at_witness :
    (update_payment_status (some (DBState.mk
        [⟨1, "Alice", 5, "USD", "pending", "credit_card", 10, 10⟩,
         ⟨2, "Bob", 7, "EUR", "completed", "paypal", 11, 12⟩] 3))
        false 1 "refunded" 20).2.2 =
      some { table := updateRow
              [⟨1, "Alice", 5, "USD", "pending", "credit_card", 10, 10⟩,
               ⟨2, "Bob", 7, "EUR", "completed", "paypal", 11, 12⟩] 1 "refunded" 20,
             nextId := 3 } ∧
    (updateRow
        [⟨1, "Alice", 5, "USD", "pending", "credit_card", 10, 10⟩,
         ⟨2, "Bob", 7, "EUR", "completed", "paypal", 11, 12⟩] 1 "refunded" 20).length =
      ([⟨1, "Alice", 5, "USD", "pending", "credit_card", 10, 10⟩,
        ⟨2, "Bob", 7, "EUR", "completed", "paypal", 11, 12⟩] : List Payment).length ∧
    (updateRow
        [⟨1, "Alice", 5, "USD", "pending", "credit_card", 10, 10⟩,
         ⟨2, "Bob", 7, "EUR", "completed", "paypal", 11, 12⟩] 1 "refunded" 20).get
        ⟨0, by decide⟩ =
      (if (([⟨1, "Alice", 5, "USD", "pending", "credit_card", 10, 10⟩,
             ⟨2, "Bob", 7, "EUR", "completed", "paypal", 11, 12⟩] : List Payment).get
             ⟨0, by decide⟩).id = 1
       then { ([⟨1, "Alice", 5, "USD", "pending", "credit_card", 10, 10⟩,
               ⟨2, "Bob", 7, "EUR", "completed", "paypal", 11, 12⟩] : List Payment).get
               ⟨0, by decide⟩ with status := "refunded", updated_at := 20 }
       else ([⟨1, "Alice", 5, "USD", "pending", "credit_card", 10, 10⟩,
              ⟨2, "Bob", 7, "EUR", "completed", "paypal", 11, 12⟩] : List Payment).get
              ⟨0, by decide⟩) ∧
    ((updateRow
        [⟨1, "Alice", 5, "USD", "pending", "credit_card", 10, 10⟩,
         ⟨2, "Bob", 7, "EUR", "completed", "paypal", 11, 12⟩] 1 "refunded" 20).get
        ⟨0, by decide⟩).id =
      (([⟨1, "Alice", 5, "USD", "pending", "credit_card", 10, 10⟩,
         ⟨2, "Bob", 7, "EUR", "completed", "paypal", 11, 12⟩] : List Payment).get
         ⟨0, by decide⟩).id ∧
    ((updateRow
        [⟨1, "Alice", 5, "USD", "pending", "credit_card", 10, 10⟩,
         ⟨2, "Bob", 7, "EUR", "completed", "paypal", 11, 12⟩] 1 "refunded" 20).get
        ⟨0, by decide⟩).customer_name =
      (([⟨1, "Alice", 5, "USD", "pending", "credit_card", 10, 10⟩,
         ⟨2, "Bob", 7, "EUR", "completed", "paypal", 11, 12⟩] : List Payment).get
         ⟨0, by decide⟩).customer_name ∧
    ((updateRow
        [⟨1, "Alice", 5, "USD", "pending", "credit_card", 10, 10⟩,
         ⟨2, "Bob", 7, "EUR", "completed", "paypal", 11, 12⟩] 1 "refunded" 20).get
        ⟨0, by decide⟩).amount =
      (([⟨1, "Alice", 5, "USD", "pending", "credit_card", 10, 10⟩,
         ⟨2, "Bob", 7, "EUR", "completed", "paypal", 11, 12⟩] : List Payment).get
         ⟨0, by decide⟩).amount ∧
    ((updateRow
        [⟨1, "Alice", 5, "USD", "pending", "credit_card", 10, 10⟩,
         ⟨2, "Bob", 7, "EUR", "completed", "paypal", 11, 12⟩] 1 "refunded" 20).get
        ⟨0, by decide⟩).currency =
      (([⟨1, "Alice", 5, "USD", "pending", "credit_card", 10, 10⟩,
         ⟨2, "Bob", 7, "EUR", "completed", "paypal", 11, 12⟩] : List Payment).get
         ⟨0, by decide⟩).currency ∧
    ((updateRow
        [⟨1, "Alice", 5, "USD", "pending", "credit_card", 10, 10⟩,
         ⟨2, "Bob", 7, "EUR", "completed", "paypal", 11, 12⟩] 1 "refunded" 20).get
        ⟨0, by decide⟩).payment_method =
      (([⟨1, "Alice", 5, "USD", "pending", "credit_card", 10, 10⟩,
         ⟨2, "Bob", 7, "EUR", "completed", "paypal", 11, 12⟩] : List Payment).get
         ⟨0, by decide⟩).payment_method ∧
    ((updateRow
        [⟨1, "Alice", 5, "USD", "pending", "credit_card", 10, 10⟩,
         ⟨2, "Bob", 7, "EUR", "completed", "paypal", 11, 12⟩] 1 "refunded" 20).get
        ⟨0, by decide⟩).created_at =
      (([⟨1, "Alice", 5, "USD", "pending", "credit_card", 10, 10⟩,
         ⟨2, "Bob", 7, "EUR", "completed", "paypal", 11, 12⟩] : List Payment).get
         ⟨0, by decide⟩).created_at :=
  C7_update_touches_only_status_updated_at (DBState.mk
      [⟨1, "Alice", 5, "USD", "pending", "credit_card", 10, 10⟩,
       ⟨2, "Bob", 7, "EUR", "completed", "paypal", 11, 12⟩] 3)
    1 "refunded" 20 0 (by decide) (by decide)

/-! ### C8 -/

/-- A repository operation as invoked by the presentation layer. -/
inductive Op
  | list (limit : Nat)
  | insert (customer_name : String) (amount : ℚ) (currency payment_method : String)
  | update (payment_id : Nat) (new_status : String)

/-- One invocation: the operation, whether the database call raises, and
the wall-clock time `datetime.now()` observed during the call. -/
structure ReqStep where
  op : Op
  fail : Bool
  time : Nat

/-- Effect of one invocation on the database state (reads leave it alone;
a failed write is rolled back, i.e. leaves the state unchanged). -/
def applyOp (s : DBState) (r : ReqStep) : DBState :=
  match r.op with
  | Op.list _ => s
  | Op.insert nm amt cur mth =>
    match (add_payment (some s) r.fail nm amt cur mth r.time).2.2 with
    | some s' => s'
    | none => s
  | Op.update pid st =>
    match (update_payment_status (some s) r.fail pid st r.time).2.2 with
    | some s' => s'
    | none => s

/-- A whole sequence of repository invocations, applied in order. -/
def run (s : DBState) (steps : List ReqStep) : DBState :=
  steps.foldl applyOp s

/-- The data-model invariant: every row satisfies
`created_at ≤ updated_at`. -/
def Inv (s : DBState) : Prop := ∀ p ∈ s.table, p.created_at ≤ p.updated_at

/-- Every timestamp stored in the table is at most `t` (the clock has not
gone backwards past any stored write). -/
def TimesLe (s : DBState) (t : Nat) : Prop :=
  ∀ p ∈ s.table, p.created_at ≤ t ∧ p.updated_at ≤ t

theorem TimesLe.mono {s : DBState} {t t' : Nat} (h : TimesLe s t) (htt : t ≤ t') :
    TimesLe s t' :=
  fun p hp => ⟨le_trans (h p hp).1 htt, le_trans (h p hp).2 htt⟩

/-- One invocation preserves the invariant and keeps all stored timestamps
at most the invocation time. -/
theorem applyOp_preserves (s : DBState) (r : ReqStep) (hInv : Inv s)
    (hT : TimesLe s r.time) : Inv (applyOp s r) ∧ TimesLe (applyOp s r) r.time := by
  match hop : r.op with
  | Op.list limit =>
    simp only [applyOp, hop]
    exact ⟨hInv, hT⟩
  | Op.insert nm amt cur mth =>
    match hf : r.fail with
    | true =>
      simp only [applyOp, hop, hf, add_payment, runDB, if_pos rfl]
      exact ⟨hInv, hT⟩
    | false =>
      simp only [applyOp, hop, hf, add_payment, runDB, Bool.false_eq_true, if_false]
      constructor
      · intro p hp
        rcases List.mem_append.mp hp with hmem | hnew
        · exact hInv p hmem
        · rw [List.mem_singleton.mp hnew]
          exact le_refl _
      · intro p hp
        rcases List.mem_append.mp hp with hmem | hnew
        · exact hT p hmem
        · rw [List.mem_singleton.mp hnew]
          exact ⟨le_refl _, le_refl _⟩
  | Op.update pid st =>
    match hf : r.fail with
    | true =>
      simp only [applyOp, hop, hf, update_payment_status, runDB, if_pos rfl]
      exact ⟨hInv, hT⟩
    | false =>
      simp only [applyOp, hop, hf, update_payment_status, runDB, Bool.false_eq_true, if_false]
      constructor
      · intro p hp
        obtain ⟨q, hq, hqp⟩ := List.mem_map.mp hp
        by_cases hid : q.id = pid
        · rw [← hqp, if_pos hid]
          exact (hT q hq).1
        · rw [← hqp, if_neg hid]
          exact hInv q hq
      · intro p hp
        obtain ⟨q, hq, hqp⟩ := List.mem_map.mp hp
        by_cases hid : q.id = pid
        · rw [← hqp, if_pos hid]
          exact ⟨(hT q hq).1, le_refl _⟩
        · rw [← hqp, if_neg hid]
          exact hT q hq

/-- C8: the invariant `updated_at ≥ created_at` holds for every row after
every sequence of repository operations, provided the clock does not go
backwards: `add_payment` establishes it by writing the same timestamp to
both fields, and `update_payment_status` preserves it by rewriting
`updated_at` to the call time while leaving `created_at` unchanged. -/
theorem C8_updated_at_ge_created_at (s : DBState) (t0 : Nat) (steps : List ReqStep)
    (hInv : Inv s) (hT : TimesLe s t0)
    (hchain : List.Chain (fun a b => a ≤ b) t0 (steps.map ReqStep.time)) :
    Inv (run s steps) := by
  induction steps generalizing s t0 with
  | nil => exact hInv
  | cons r rest ih =>
    rw [List.map_cons, List.chain_cons] at hchain
    have hT' : TimesLe s r.time := hT.mono hchain.1
    obtain ⟨hInv', hT''⟩ := applyOp_preserves s r hInv hT'
    exact ih (applyOp s r) r.time hInv' hT'' hchain.2

/-- Witness for C8: an insert followed by a status update, clock 0 → 1 → 2,
starting from the empty table. -/
theorem C8_updated_at_ge_created_at_witness :
    Inv (run (DBState.mk [] 0)
      [ReqStep.mk (Op.insert "Alice" 5 "USD" "credit_card") false 1,
       ReqStep.mk (Op.update 0 "completed") false 2]) :=
  C8_updated_at_ge_created_at (DBState.mk [] 0) 0
    [ReqStep.mk (Op.insert "Alice" 5 "USD" "credit_card") false 1,
     ReqStep.mk (Op.update 0 "completed") false 2]
    (fun p hp => absurd hp (List.not_mem_nil p))
    (fun p hp => absurd hp (List.not_mem_nil p))
    (List.Chain.cons (by decide) (List.Chain.cons (by decide) List.Chain.nil))

/-! ### C9 -/

/-- A value bound to a `%s` placeholder in a parameterized query. -/
inductive SQLParam
  | str (s : String)
  | num (q : ℚ)
  | nat (n : Nat)
deriving DecidableEq

/-- The `cursor.execute(query, (limit,))` call of `get_payments`: the text
is the literal from the source, caller input goes only into the parameter
tuple. -/
def get_payments_sql (limit : Nat) : String × List SQLParam :=
  ("SELECT id, customer_name, amount, currency, status, payment_method, created_at, updated_at FROM payments ORDER BY created_at DESC LIMIT %s",
   [SQLParam.nat limit])

/-- The `cursor.execute(query, (...))` call of `add_payment`. -/
def add_payment_sql (customer_name : String) (amount : ℚ)
    (currency payment_method : String) (now : Nat) : String × List SQLParam :=
  ("INSERT INTO payments (customer_name, amount, currency, status, payment_method, created_at, updated_at) VALUES (%s, %s, %s, %s, %s, %s, %s)",
   [SQLParam.str customer_name, SQLParam.num amount, SQLParam.str currency,
    SQLParam.str "pending", SQLParam.str payment_method, SQLParam.nat now, SQLParam.nat now])

/-- The `cursor.execute(query, (...))` call of `update_payment_status`. -/
def update_payment_status_sql (new_status : String) (now : Nat)
    (payment_id : Nat) : String × List SQLParam :=
  ("UPDATE payments SET status = %s, updated_at = %s WHERE id = %s",
   [SQLParam.str new_status, SQLParam.nat now, SQLParam.nat payment_id])

/-- First `cursor.execute` of `get_payment_stats` (today's count/total). -/
def stats_today_sql (today : Nat) : String × List SQLParam :=
  ("SELECT COUNT(*), COALESCE(SUM(amount), 0) FROM payments WHERE DATE(created_at) = %s",
   [SQLParam.nat today])

/-- Second `cursor.execute` of `get_payment_stats` (status histogram);
it takes no caller input at all. -/
def stats_distribution_sql : String × List SQLParam :=
  ("SELECT status, COUNT(*) FROM payments GROUP BY status", [])

/-- Third `cursor.execute` of `get_payment_stats` (last-hour count). -/
def stats_recent_sql (one_hour_ago : Nat) : String × List SQLParam :=
  ("SELECT COUNT(*) FROM payments WHERE created_at >= %s",
   [SQLParam.nat one_hour_ago])

/-- C9: for every operation and all caller-supplied inputs, the SQL text
submitted to the database is a fixed constant independent of those inputs,
and the inputs appear only in the bound-parameter tuple — never
interpolated into the query string. -/
theorem C9_sql_text_constant (l1 l2 : Nat) (n1 n2 : String) (a1 a2 : ℚ)
    (c1 c2 m1 m2 s1 s2 : String) (t1 t2 p1 p2 d1 d2 g1 g2 : Nat) :
    (get_payments_sql l1).1 = (get_payments_sql l2).1 ∧
    (get_payments_sql l1).2 = [SQLParam.nat l1] ∧
    (add_payment_sql n1 a1 c1 m1 t1).1 = (add_payment_sql n2 a2 c2 m2 t2).1 ∧
    (add_payment_sql n1 a1 c1 m1 t1).2 =
      [SQLParam.str n1, SQLParam.num a1, SQLParam.str c1, SQLParam.str "pending",
       SQLParam.str m1, SQLParam.nat t1, SQLParam.nat t1] ∧
    (update_payment_status_sql s1 t1 p1).1 = (update_payment_status_sql s2 t2 p2).1 ∧
    (update_payment_status_sql s1 t1 p1).2 =
      [SQLParam.str s1, SQLParam.nat t1, SQLParam.nat p1] ∧
    (stats_today_sql d1).1 = (stats_today_sql d2).1 ∧
    (stats_today_sql d1).2 = [SQLParam.nat d1] ∧
    (stats_recent_sql g1).1 = (stats_recent_sql g2).1 ∧
    (stats_recent_sql g1).2 = [SQLParam.nat g1] ∧
    stats_distribution_sql.2 = [] :=
  ⟨rfl, rfl, rfl, rfl, rfl, rfl, rfl, rfl, rfl, rfl, rfl⟩

/-! ### C10 -/

/-- C10: `get_payment_stats` is all-or-nothing: its returned mapping is
either empty, or carries exactly the four keys `today_count`,
`today_total`, `status_distribution`, `recent_activity`; it is empty
exactly when no connection is available or one of the three sub-queries
fails — a partial record never escapes. -/
theorem C10_stats_all_or_nothing (conn : Option DBState) (f1 f2 f3 : Bool)
    (now : Nat) :
    ((get_payment_stats conn f1 f2 f3 now).2.map Prod.fst = [] ∨
     (get_payment_stats conn f1 f2 f3 now).2.map Prod.fst =
       ["today_count", "today_total", "status_distribution", "recent_activity"]) ∧
    ((get_payment_stats conn f1 f2 f3 now).2 = [] ↔
       (conn = none ∨ f1 = true ∨ f2 = true ∨ f3 = true)) := by
  match conn with
  | none => simp [get_payment_stats]
  | some s =>
    match f1 with
    | true => simp [get_payment_stats, runDB]
    | false =>
      match f2 with
      | true => simp [get_payment_stats, runDB]
      | false =>
        match f3 with
        | true => simp [get_payment_stats, runDB]
        | false => simp [get_payment_stats, runDB]

end PaymentTracker
